import Mathlib

/-!
Shallow embedding of the keycloak-agent-identity wrapper scripts:
`keycloak/boot_keycloak.py`, `run_spire.py` and `run_keycloak.py`.

External effects (subprocess results, HTTP responses, the filesystem) are
supplied by explicit environments. Each function is translated from the
Python source; stateful behaviour is rendered as explicit traces of the
external effects performed, and exception propagation is rendered with
`Except`.
-/

/-! ## HTTP model (boot_keycloak.py: check_keycloak_health, wait_for_keycloak) -/

/-- Outcome of one HTTP GET issued by `check_keycloak_health`: either a
response carrying a status code, or a transport exception
(`requests.exceptions.RequestException`) carrying a message. -/
inductive HttpOutcome where
  | status (code : Nat)
  | transportError (msg : String)
deriving DecidableEq, Repr

/-- Behaviour of `requests.get(f"{url}/realms/master", timeout=10)`: the call
either returns a response (its status code) or raises a transport exception,
modelled with `Except`. -/
def http_get (o : HttpOutcome) : Except String Nat :=
  match o with
  | HttpOutcome.status c => Except.ok c
  | HttpOutcome.transportError m => Except.error m

/-- `check_keycloak_health` (boot_keycloak.py lines 84-97): performs one GET on
the master-realm path; returns `true` exactly when the response status is 200,
and the `except requests.exceptions.RequestException` clause converts a raised
transport exception into `false`. -/
def check_keycloak_health (o : HttpOutcome) : Bool :=
  match http_get o with
  | Except.ok code => if code = 200 then true else false
  | Except.error _ => false

/-- Loop of `wait_for_keycloak` (boot_keycloak.py lines 99-111): `env i` is the
outcome of the i-th HTTP request overall, `s` the index of the next request,
and the fuel is the number of remaining attempts. Returns the final boolean
together with how many requests were issued. Each iteration performs exactly
one request (inside `check_keycloak_health`) and on failure sleeps 2s (the
sleep has no observable effect in this model). -/
def wait_aux (env : Nat → HttpOutcome) (s : Nat) : Nat → Bool × Nat
  | 0 => (false, 0)
  | n + 1 =>
    if check_keycloak_health (env s) then (true, 1)
    else
      let r := wait_aux env (s + 1) n
      (r.1, r.2 + 1)

/-- `wait_for_keycloak(keycloak_url, max_attempts)`: iterates
`for attempt in range(max_attempts)`, returning `True` on the first healthy
check and `False` when the budget is exhausted. The default budget at the call
site in `main` is 30. -/
def wait_for_keycloak (env : Nat → HttpOutcome) (maxAttempts : Nat) : Bool × Nat :=
  wait_aux env 0 maxAttempts

/-! ## Subprocess model (boot_keycloak.py: run_command, manage_docker_compose,
run_setup_keycloak, main) -/

/-- Result of one shell command: the data carried both by a
`subprocess.CompletedProcess` and by a `subprocess.CalledProcessError`
(with `capture_output=True, text=True` both expose `returncode` and the
captured `stdout` string). -/
structure CmdResult where
  returncode : Int
  stdout : String
deriving DecidableEq, Repr

/-- `run_command` (boot_keycloak.py lines 59-82): `subprocess.run(...,
check=check)` raises `CalledProcessError` when the command exits non-zero and
`check` is true; the surrounding `try` logs it and re-raises when `check` is
true, and returns the error object (same `returncode`/`stdout` data) when
`check` is false. `Except.error` models the exception escaping. -/
def run_command (res : CmdResult) (check : Bool) : Except CmdResult CmdResult :=
  if check = true ∧ res.returncode ≠ 0 then Except.error res else Except.ok res

/-- Scan of a character list for an occurrence of 'U' immediately followed
by 'p'. -/
def hasUp : List Char → Bool
  | [] => false
  | c :: rest => if c = 'U' ∧ rest.head? = some 'p' then true else hasUp rest

/-- Python substring test `"Up" in s`, applied to the captured stdout of
`docker compose ps`. -/
def containsUp (s : String) : Bool := hasUp s.data

/-- External commands issued by boot_keycloak.py: `docker compose ps`,
`docker compose down`, `docker compose up -d`, and the spawn of
`setup_keycloak.py`. -/
inductive Cmd where
  | ps
  | down
  | up
  | setup
deriving DecidableEq, Repr

/-- Environment for one run of boot_keycloak.py: the results the external
world would give to each command, the HTTP outcomes, and whether the
configuration file loads (and yields a realm name). `setupExit` is the exit
code of the `setup_keycloak.py` child. -/
structure BootEnv where
  configOk : Bool
  psResult : CmdResult
  downResult : CmdResult
  upResult : CmdResult
  http : Nat → HttpOutcome
  setupExit : Int

/-- `manage_docker_compose` (boot_keycloak.py lines 113-135): runs
`docker compose ps` with `check=False`; if the captured stdout contains "Up",
runs `docker compose down` (with `check=True`); then runs
`docker compose up -d` (with `check=True`) and returns `False` if its
returncode is non-zero, else `True`. `Except.error` models a
`CalledProcessError` escaping to the caller; the second component is the trace
of commands issued. -/
def manage_docker_compose (env : BootEnv) : Except CmdResult Bool × List Cmd :=
  match run_command env.psResult false with
  | Except.error e => (Except.error e, [Cmd.ps])
  | Except.ok psRes =>
    if containsUp psRes.stdout then
      match run_command env.downResult true with
      | Except.error e => (Except.error e, [Cmd.ps, Cmd.down])
      | Except.ok _ =>
        match run_command env.upResult true with
        | Except.error e => (Except.error e, [Cmd.ps, Cmd.down, Cmd.up])
        | Except.ok upRes =>
          if upRes.returncode ≠ 0 then (Except.ok false, [Cmd.ps, Cmd.down, Cmd.up])
          else (Except.ok true, [Cmd.ps, Cmd.down, Cmd.up])
    else
      match run_command env.upResult true with
      | Except.error e => (Except.error e, [Cmd.ps, Cmd.up])
      | Except.ok upRes =>
        if upRes.returncode ≠ 0 then (Except.ok false, [Cmd.ps, Cmd.up])
        else (Except.ok true, [Cmd.ps, Cmd.up])

/-- `run_setup_keycloak` (boot_keycloak.py lines 137-174): spawns
`setup_keycloak.py` with `check=True`; a non-zero child exit raises
`CalledProcessError`, which the function catches itself and converts to
`False` (a spawn failure is likewise caught by `except Exception` and folded
into a non-zero outcome here), so it returns `True` exactly when the child
exits 0. -/
def run_setup_keycloak (childExit : Int) : Bool := childExit == 0

/-- Observable outcome of one run of boot_keycloak.py `main`: the process exit
code (0 on success, via `sys.exit` otherwise), the commands issued, and the
number of health HTTP requests made. -/
structure MainOutcome where
  exitCode : Nat
  cmds : List Cmd
  httpRequests : Nat
deriving DecidableEq, Repr

/-- `main` of boot_keycloak.py (lines 194-241): load the configuration
(`load_config` calls `sys.exit(1)` on failure; a missing `realm.name` raises
and is caught by the top-level `except Exception`, also exiting 1 — both are
folded into `configOk = false`); then `manage_docker_compose` (a raised
`CalledProcessError` reaches the top-level handler: exit 1), then
`wait_for_keycloak(args.url)` with the default budget 30, then
`run_setup_keycloak`; each `False` step result gives `sys.exit(1)`. -/
def boot_main (env : BootEnv) : MainOutcome :=
  if env.configOk = false then { exitCode := 1, cmds := [], httpRequests := 0 }
  else
    let m := manage_docker_compose env
    match m.1 with
    | Except.error _ => { exitCode := 1, cmds := m.2, httpRequests := 0 }
    | Except.ok false => { exitCode := 1, cmds := m.2, httpRequests := 0 }
    | Except.ok true =>
      let r := wait_for_keycloak env.http 30
      if r.1 = false then { exitCode := 1, cmds := m.2, httpRequests := r.2 }
      else if run_setup_keycloak env.setupExit = false then
        { exitCode := 1, cmds := m.2 ++ [Cmd.setup], httpRequests := r.2 }
      else { exitCode := 0, cmds := m.2 ++ [Cmd.setup], httpRequests := r.2 }

/-! ## Concrete environments used by counterexamples and witnesses -/

/-- Environment where `docker compose up -d` exits 1 and everything else
would succeed; the HTTP oracle is irrelevant on this path. -/
def envC1 : BootEnv :=
  { configOk := true
    psResult := { returncode := 0, stdout := "" }
    downResult := { returncode := 0, stdout := "" }
    upResult := { returncode := 1, stdout := "" }
    http := fun _ => HttpOutcome.transportError "unused"
    setupExit := 0 }

/-- Environment where the whole bring-up succeeds except that the
`setup_keycloak.py` child exits with code 2. -/
def envC3 : BootEnv :=
  { configOk := true
    psResult := { returncode := 0, stdout := "" }
    downResult := { returncode := 0, stdout := "" }
    upResult := { returncode := 0, stdout := "" }
    http := fun _ => HttpOutcome.status 200
    setupExit := 2 }

/-- Environment where `docker compose up -d` exits 1 (used against
`manage_docker_compose` directly). -/
def envC4 : BootEnv :=
  { configOk := true
    psResult := { returncode := 0, stdout := "" }
    downResult := { returncode := 0, stdout := "" }
    upResult := { returncode := 1, stdout := "" }
    http := fun _ => HttpOutcome.transportError "unused"
    setupExit := 0 }

/-- Environment where `docker compose ps` exits 1 yet its captured stdout
still contains the substring "Up". -/
def envC9 : BootEnv :=
  { configOk := true
    psResult := { returncode := 1, stdout := "keycloak  Up 2 minutes" }
    downResult := { returncode := 0, stdout := "" }
    upResult := { returncode := 0, stdout := "" }
    http := fun _ => HttpOutcome.status 200
    setupExit := 0 }

/-- Environment where `docker compose ps` exits 1 with stdout that does not
contain "Up". -/
def envC9b : BootEnv :=
  { configOk := true
    psResult := { returncode := 1, stdout := "error during connect" }
    downResult := { returncode := 0, stdout := "" }
    upResult := { returncode := 0, stdout := "" }
    http := fun _ => HttpOutcome.status 200
    setupExit := 0 }

/-! ## run_spire.py model -/

/-- Working-directory values reachable in run_spire.py `main`: the directory
the process started in (`original_cwd`) and the spire subdirectory. -/
inductive Loc where
  | originalCwd
  | spireDir
deriving DecidableEq, Repr

/-- Outcome of `subprocess.run([f"./{script_name}"], cwd=spire_dir,
check=True)`: the child exits with a code (non-zero raises
`CalledProcessError`), or some other exception is raised. -/
inductive ChildOutcome where
  | exited (code : Int)
  | raised (msg : String)
deriving DecidableEq, Repr

/-- Environment for one run of run_spire.py: which filesystem entries exist
and how the external operations behave. `chmodRaises` covers an exception
from `os.chmod` inside the `try` block. -/
structure SpireEnv where
  spireDirExists : Bool
  upScriptExists : Bool
  downScriptExists : Bool
  chmodRaises : Bool
  childOutcome : ChildOutcome
deriving DecidableEq, Repr

/-- Externally visible events of run_spire.py `main`: `os.chdir`, `os.chmod`
on the selected script, and the `subprocess.run` invocation of a script. -/
inductive SpireEvent where
  | chdir (l : Loc)
  | chmodScript (script : String)
  | runScript (script : String)
deriving DecidableEq, Repr

/-- Script selection in run_spire.py `main` (lines 29-37): `--down` selects
`spire-down.sh`, otherwise `spire-up.sh`. -/
def script_name (down : Bool) : String :=
  if down then "spire-down.sh" else "spire-up.sh"

/-- Existence check of the selected script in the spire directory. -/
def selectedScriptExists (env : SpireEnv) (down : Bool) : Bool :=
  if down then env.downScriptExists else env.upScriptExists

/-- Event trace of run_spire.py `main` (lines 13-73): exit early (before any
`chdir`) if the spire directory or the selected script is missing; otherwise
`os.chdir(spire_dir)`, then inside `try`: `os.chmod` (an exception here skips
the run and falls to `except Exception`), then `subprocess.run` of the
selected script; the `finally` block performs `os.chdir(original_cwd)` on
every path out of the `try` — child success, `CalledProcessError` from a
non-zero child exit (whose handler calls `sys.exit(e.returncode)`, raising
`SystemExit` through the `finally`), and any other exception. -/
def spire_events (env : SpireEnv) (down : Bool) : List SpireEvent :=
  if env.spireDirExists = false then []
  else if selectedScriptExists env down = false then []
  else
    SpireEvent.chdir Loc.spireDir ::
      (if env.chmodRaises then [SpireEvent.chdir Loc.originalCwd]
       else [SpireEvent.chmodScript (script_name down),
             SpireEvent.runScript (script_name down),
             SpireEvent.chdir Loc.originalCwd])

/-- Process exit code of run_spire.py `main`: 1 on a missing directory or
script, `e.returncode` on a child `CalledProcessError`, 1 on any other
exception, 0 on success. -/
def spire_exit (env : SpireEnv) (down : Bool) : Int :=
  if env.spireDirExists = false then 1
  else if selectedScriptExists env down = false then 1
  else if env.chmodRaises then 1
  else
    match env.childOutcome with
    | ChildOutcome.exited code => if code = 0 then 0 else code
    | ChildOutcome.raised _ => 1

/-- Effect of one event on the current working directory. -/
def applyEvent (c : Loc) (e : SpireEvent) : Loc :=
  match e with
  | SpireEvent.chdir l => l
  | SpireEvent.chmodScript _ => c
  | SpireEvent.runScript _ => c

/-- Working directory after a trace of events, starting from `init`. -/
def finalCwd (init : Loc) (evs : List SpireEvent) : Loc :=
  evs.foldl applyEvent init

/-- Scripts a trace actually passed to `subprocess.run`. -/
def executedScripts (evs : List SpireEvent) : List String :=
  evs.filterMap fun e =>
    match e with
    | SpireEvent.runScript s => some s
    | _ => none

/-! ## Path model (run_keycloak.py main, boot_keycloak.py load_config) -/

/-- Filesystem path in the pathlib style: an absolute flag plus the list of
name components. The paths handled by these scripts contain no `..` or `.`
segments, so no normalization step is modelled. -/
structure PPath where
  absolute : Bool
  components : List String
deriving DecidableEq, Repr

/-- Pathlib `/` operator: if the right operand is absolute it replaces the
left one, otherwise the components are appended. -/
def pathDiv (p q : PPath) : PPath :=
  if q.absolute then q else { absolute := p.absolute, components := p.components ++ q.components }

/-- `Path.resolve()` (and equally the resolution the OS applies when a path
is opened): a relative path is interpreted against the current working
directory, an absolute path stands for itself. -/
def pathResolve (cwd p : PPath) : PPath :=
  if p.absolute then p else pathDiv cwd p

/-- Literal value of `DEFAULT_CONFIG_FILE = "config.json"` in
boot_keycloak.py, as a relative path. -/
def defaultConfigFile : PPath := { absolute := false, components := ["config.json"] }

/-- Config-path rewriting of run_keycloak.py `main` (lines 65-90) for a
user-specified `--config` value: an absolute path is kept, a relative one
becomes `str((project_root / config_arg).resolve())` with `cwd` the working
directory at that moment (the chdir into the keycloak directory happens
after this). -/
def run_keycloak_config_path (cwd projectRoot cfg : PPath) : PPath :=
  if cfg.absolute then cfg else pathResolve cwd (pathDiv projectRoot cfg)

/-- Default substitution in boot_keycloak.py `main` (lines 207-214): when
`args.config` equals the literal `DEFAULT_CONFIG_FILE`, it is replaced by
`script_dir / DEFAULT_CONFIG_FILE`; any other value is passed through. -/
def boot_args_config (scriptDir argCfg : PPath) : PPath :=
  if argCfg = defaultConfigFile then pathDiv scriptDir defaultConfigFile else argCfg

/-- Path computation of `load_config` (boot_keycloak.py lines 176-192): an
absolute `config_file` is used as is; a relative one is joined to
`script_dir` (the directory containing boot_keycloak.py). -/
def load_config_path (scriptDir cfg : PPath) : PPath :=
  if cfg.absolute then cfg else pathDiv scriptDir cfg

/-- Absolute file the subsequent `open(config_path)` touches: the OS resolves
the computed path against the current working directory. -/
def opened_config (cwd scriptDir cfg : PPath) : PPath :=
  pathResolve cwd (load_config_path scriptDir cfg)

/-- File opened by boot_keycloak.py for a given `--config` argument: the
default substitution of `main` followed by `load_config`. -/
def boot_opened_config (cwd scriptDir argCfg : PPath) : PPath :=
  opened_config cwd scriptDir (boot_args_config scriptDir argCfg)

/-! ## Helper lemmas -/

lemma wait_aux_count_le (env : Nat → HttpOutcome) :
    ∀ (n s : Nat), (wait_aux env s n).2 ≤ n := by
  intro n
  induction n with
  | zero => intro s; simp [wait_aux]
  | succ m ih =>
    intro s
    by_cases h : check_keycloak_health (env s)
    · simp [wait_aux, h]
    · simp only [wait_aux, h, if_false, Bool.false_eq_true]
      exact Nat.succ_le_succ (ih (s + 1))

lemma wait_aux_first (env : Nat → HttpOutcome) :
    ∀ (k n s : Nat), k < n →
      check_keycloak_health (env (s + k)) = true →
      (∀ j, j < k → check_keycloak_health (env (s + j)) = false) →
      wait_aux env s n = (true, k + 1) := by
  intro k
  induction k with
  | zero =>
    intro n s hn hk _
    match n, hn with
    | m + 1, _ =>
      simp only [Nat.add_zero] at hk
      simp [wait_aux, hk]
  | succ k ih =>
    intro n s hn hk hprev
    match n, hn with
    | m + 1, hn =>
      have h0 : check_keycloak_health (env s) = false := by
        have := hprev 0 (Nat.succ_pos k)
        simpa using this
      have hrec : wait_aux env (s + 1) m = (true, k + 1) := by
        apply ih m (s + 1)
        · omega
        · have hidx : s + 1 + k = s + (k + 1) := by omega
          rw [hidx]; exact hk
        · intro j hj
          have hidx : s + 1 + j = s + (j + 1) := by omega
          rw [hidx]; exact hprev (j + 1) (by omega)
      simp [wait_aux, h0, hrec]

lemma manage_up_fail (env : BootEnv) (h : env.upResult.returncode ≠ 0) :
    (manage_docker_compose env).1 = Except.error env.upResult ∨
    (manage_docker_compose env).1 = Except.error env.downResult := by
  by_cases hup : containsUp env.psResult.stdout
  · by_cases hdown : env.downResult.returncode = 0
    · left
      simp [manage_docker_compose, run_command, hup, hdown, h]
    · right
      simp [manage_docker_compose, run_command, hup, hdown]
  · left
    simp [manage_docker_compose, run_command, hup, h]

lemma manage_never_false (env : BootEnv) :
    (manage_docker_compose env).1 ≠ Except.ok false := by
  by_cases hup : containsUp env.psResult.stdout <;>
    by_cases hdown : env.downResult.returncode = 0 <;>
      by_cases hu : env.upResult.returncode = 0 <;>
        simp [manage_docker_compose, run_command, hup, hdown, hu]

/-! ## Claim theorems -/

/-- C1: if the container-start command (`docker compose up -d`) exits
non-zero, `main` of boot_keycloak.py terminates with process exit code 1 and
the readiness poller is never invoked — no health HTTP request is made. (In
the source the failure surfaces as a `CalledProcessError` raised through
`run_command`'s `check=True`, caught by `main`'s top-level handler, which
exits 1 before `wait_for_keycloak` is reached.) -/
theorem C1_up_failure_exits_one_without_poll (env : BootEnv)
    (h : env.upResult.returncode ≠ 0) :
    (boot_main env).exitCode = 1 ∧ (boot_main env).httpRequests = 0 := by
  by_cases hc : env.configOk
  · rcases manage_up_fail env h with hm | hm <;>
      simp [boot_main, hc, hm]
  · have hc' : env.configOk = false := by
      revert hc
      cases env.configOk <;> simp
    simp [boot_main, hc']

/-- C1 witness: the theorem applied to a concrete environment in which
`docker compose up -d` exits 1. -/
theorem C1_witness :
    envC1.upResult.returncode ≠ 0 ∧
    ((boot_main envC1).exitCode = 1 ∧ (boot_main envC1).httpRequests = 0) :=
  ⟨by decide, C1_up_failure_exits_one_without_poll envC1 (by decide)⟩

/-- C2: for every attempt budget N ≥ 1, `wait_for_keycloak` issues at most N
health requests, and whenever the k-th request (k < N) is the first one whose
outcome is a 200 response, it returns `True` having issued exactly k+1
requests — none after the first 200. -/
theorem C2_poller_bounded_and_stops_on_200 (env : Nat → HttpOutcome) (N : Nat)
    (hN : 1 ≤ N) :
    (wait_for_keycloak env N).2 ≤ N ∧
    ∀ k, k < N → env k = HttpOutcome.status 200 →
      (∀ j, j < k → env j ≠ HttpOutcome.status 200) →
      wait_for_keycloak env N = (true, k + 1) := by
  refine ⟨wait_aux_count_le env N 0, ?_⟩
  intro k hk h200 hprev
  have hchk : check_keycloak_health (env (0 + k)) = true := by
    simp [Nat.zero_add, h200, check_keycloak_health, http_get]
  have hfail : ∀ j, j < k → check_keycloak_health (env (0 + j)) = false := by
    intro j hj
    have hne := hprev j hj
    simp only [Nat.zero_add]
    cases ho : env j with
    | status c =>
      have hc : c ≠ 200 := by
        intro hc; exact hne (by rw [ho, hc])
      simp [check_keycloak_health, http_get, hc]
    | transportError m => simp [check_keycloak_health, http_get]
  exact wait_aux_first env k N 0 hk hchk hfail

/-- C2 witness: budget 3, transport error on the first request, 200 on the
second: exactly 2 requests are made and the poller returns `True`. -/
theorem C2_witness :
    (wait_for_keycloak
        (fun i => if i = 1 then HttpOutcome.status 200
                  else HttpOutcome.transportError "connection refused") 3).2 ≤ 3 ∧
    wait_for_keycloak
        (fun i => if i = 1 then HttpOutcome.status 200
                  else HttpOutcome.transportError "connection refused") 3 = (true, 2) :=
  ⟨(C2_poller_bounded_and_stops_on_200
      (fun i => if i = 1 then HttpOutcome.status 200
                else HttpOutcome.transportError "connection refused") 3 (by decide)).1,
   (C2_poller_bounded_and_stops_on_200
      (fun i => if i = 1 then HttpOutcome.status 200
                else HttpOutcome.transportError "connection refused") 3 (by decide)).2
     1 (by decide) (by decide) (by decide)⟩

/-- C3 counterexample: in an environment where every step succeeds except
that the `setup_keycloak.py` child exits with code 2, the boot process exits
with code 1, not 2 — the child's exit code is not propagated. -/
theorem C3_counterexample :
    envC3.setupExit = 2 ∧ (boot_main envC3).exitCode = 1 ∧
    (boot_main envC3).exitCode ≠ 2 := by
  refine ⟨by decide, by decide, by decide⟩

/-- C3 amended: if the configuration child process exits with any non-zero
code, the boot process exits with code 1 (the specific child exit code is
absorbed: `run_setup_keycloak` catches the `CalledProcessError` and returns
`False`, and `main` then calls `sys.exit(1)`). -/
theorem C3_setup_failure_exits_one (env : BootEnv)
    (h : env.setupExit ≠ 0) :
    (boot_main env).exitCode = 1 := by
  by_cases hc : env.configOk
  · cases hm : (manage_docker_compose env).1 with
    | error e => simp [boot_main, hc, hm]
    | ok b =>
      cases b
      · simp [boot_main, hc, hm]
      · have hs : run_setup_keycloak env.setupExit = false := by
          simp [run_setup_keycloak, h]
        by_cases hr : (wait_for_keycloak env.http 30).1 <;>
          simp [boot_main, hc, hm, hr, hs]
  · have hc' : env.configOk = false := by
      revert hc
      cases env.configOk <;> simp
    simp [boot_main, hc']

/-- C3 witness: the amended theorem applied to the concrete environment with
child exit code 2. -/
theorem C3_witness :
    envC3.setupExit ≠ 0 ∧ (boot_main envC3).exitCode = 1 :=
  ⟨by decide, C3_setup_failure_exits_one envC3 (by decide)⟩

/-- C4 counterexample: with `docker compose up -d` exiting 1 (all earlier
commands succeeding), `manage_docker_compose` does not return `False`: the
`CalledProcessError` raised by `run_command` (called with its default
`check=True`) escapes to the caller. -/
theorem C4_counterexample :
    envC4.upResult.returncode ≠ 0 ∧
    (manage_docker_compose envC4).1 = Except.error envC4.upResult ∧
    (manage_docker_compose envC4).1 ≠ Except.ok false := by
  have h1 : (manage_docker_compose envC4).1 = Except.error envC4.upResult := rfl
  refine ⟨by decide, h1, ?_⟩
  rw [h1]
  simp

/-- C4 amended: `manage_docker_compose` returns `True` on success but never
returns `False`: when the start command exits non-zero a `CalledProcessError`
escapes to the caller (raised at the start command, or already at the
preceding stop command), so the `return False` branch is unreachable. -/
theorem C4_up_failure_raises (env : BootEnv)
    (h : env.upResult.returncode ≠ 0) :
    (manage_docker_compose env).1 ≠ Except.ok false ∧
    ((manage_docker_compose env).1 = Except.error env.upResult ∨
     (manage_docker_compose env).1 = Except.error env.downResult) :=
  ⟨manage_never_false env, manage_up_fail env h⟩

/-- C4 witness: the amended theorem applied to the concrete environment with
the start command exiting 1. -/
theorem C4_witness :
    (manage_docker_compose envC4).1 ≠ Except.ok false ∧
    ((manage_docker_compose envC4).1 = Except.error envC4.upResult ∨
     (manage_docker_compose envC4).1 = Except.error envC4.downResult) :=
  C4_up_failure_raises envC4 (by decide)

/-- C5: `check_keycloak_health` is a total boolean function of the HTTP
outcome: it returns `true` exactly on a 200 response, hence `false` on every
non-200 response, and every transport exception is converted into `false`
rather than propagated. -/
theorem C5_health_check_never_raises :
    (∀ o, check_keycloak_health o = true ↔ o = HttpOutcome.status 200) ∧
    (∀ m, check_keycloak_health (HttpOutcome.transportError m) = false) := by
  constructor
  · intro o
    cases o with
    | status c =>
      by_cases hc : c = 200 <;>
        simp [check_keycloak_health, http_get, hc]
    | transportError m =>
      simp [check_keycloak_health, http_get]
  · intro m
    rfl

/-- C6: after run_spire.py `main` finishes, the working directory equals its
value before the dispatcher changed it, for every environment — child
success, child non-zero exit, and any exception raised while running the
child (the `finally` block restores it; early exits happen before the
`chdir`). -/
theorem C6_cwd_restored (env : SpireEnv) (down : Bool) :
    finalCwd Loc.originalCwd (spire_events env down) = Loc.originalCwd := by
  by_cases h1 : env.spireDirExists = false
  · simp [spire_events, h1, finalCwd]
  · by_cases h2 : selectedScriptExists env down = false
    · simp [spire_events, h1, h2, finalCwd]
    · by_cases h3 : env.chmodRaises <;>
        simp [spire_events, h1, h2, h3, finalCwd, applyEvent]

/-- C7: with `--down` the dispatcher selects `spire-down.sh` and the scripts
it passes to `subprocess.run` are exactly `spire-down.sh` when the directory
and script exist and chmod does not raise, and none otherwise — in
particular `spire-up.sh` is never executed; without `--down`, symmetrically,
only `spire-up.sh` is ever executed. -/
theorem C7_down_selects_only_shutdown (env : SpireEnv) :
    script_name true = "spire-down.sh" ∧
    script_name false = "spire-up.sh" ∧
    executedScripts (spire_events env true) =
      (if env.spireDirExists && env.downScriptExists && !env.chmodRaises
       then ["spire-down.sh"] else []) ∧
    executedScripts (spire_events env false) =
      (if env.spireDirExists && env.upScriptExists && !env.chmodRaises
       then ["spire-up.sh"] else []) := by
  refine ⟨rfl, rfl, ?_, ?_⟩ <;>
  · by_cases h1 : env.spireDirExists <;>
      by_cases h2 : env.downScriptExists <;>
        by_cases h3 : env.upScriptExists <;>
          by_cases h4 : env.chmodRaises <;>
            simp [spire_events, executedScripts, selectedScriptExists,
              script_name, h1, h2, h3, h4]

/-- C8: the config argument `keycloak/config.json` given to run_keycloak.py
at the project root and the argument `config.json` given directly to
boot_keycloak.py resolve to the same absolute file opened by `load_config`,
namely `<project_root>/keycloak/config.json`, for every absolute project
root and every working directory at the wrapper's resolve step. -/
theorem C8_path_normalization_agrees (pr : List String) (cwdA : PPath) :
    boot_opened_config (pathDiv (PPath.mk true pr) (PPath.mk false ["keycloak"]))
        (pathDiv (PPath.mk true pr) (PPath.mk false ["keycloak"]))
        (run_keycloak_config_path cwdA (PPath.mk true pr)
          (PPath.mk false ["keycloak", "config.json"]))
      = boot_opened_config (pathDiv (PPath.mk true pr) (PPath.mk false ["keycloak"]))
          (pathDiv (PPath.mk true pr) (PPath.mk false ["keycloak"]))
          (PPath.mk false ["config.json"]) ∧
    boot_opened_config (pathDiv (PPath.mk true pr) (PPath.mk false ["keycloak"]))
        (pathDiv (PPath.mk true pr) (PPath.mk false ["keycloak"]))
        (PPath.mk false ["config.json"])
      = PPath.mk true (pr ++ ["keycloak", "config.json"]) := by
  constructor <;>
    simp [boot_opened_config, boot_args_config, opened_config, load_config_path,
      run_keycloak_config_path, pathResolve, pathDiv, defaultConfigFile,
      PPath.mk.injEq]

/-- C9 counterexample: `docker compose ps` exits 1 while its captured stdout
still contains "Up": the code then issues the stop command, so a failing
query is not treated as "no containers up". -/
theorem C9_counterexample :
    envC9.psResult.returncode ≠ 0 ∧ Cmd.down ∈ (manage_docker_compose envC9).2 := by
  exact ⟨by decide, by decide⟩

/-- C9 amended: a non-zero exit of `docker compose ps` never aborts the
bring-up (the query runs with `check=False`, so no exception is raised
there), and when additionally the captured stdout does not contain "Up" no
stop command is issued and the start command is still issued; the stop
decision depends only on the stdout content, not on the exit code. -/
theorem C9_ps_failure_does_not_abort (env : BootEnv)
    (h : env.psResult.returncode ≠ 0) :
    run_command env.psResult false = Except.ok env.psResult ∧
    (containsUp env.psResult.stdout = false →
      Cmd.down ∉ (manage_docker_compose env).2 ∧
      Cmd.up ∈ (manage_docker_compose env).2) := by
  constructor
  · simp [run_command]
  · intro hup
    by_cases hu : env.upResult.returncode = 0 <;>
      simp [manage_docker_compose, run_command, hup, hu]

/-- C9 witness: the amended theorem applied to a failing `docker compose ps`
whose stdout does not contain "Up". -/
theorem C9_witness :
    run_command envC9b.psResult false = Except.ok envC9b.psResult ∧
    (Cmd.down ∉ (manage_docker_compose envC9b).2 ∧
     Cmd.up ∈ (manage_docker_compose envC9b).2) :=
  ⟨(C9_ps_failure_does_not_abort envC9b (by decide)).1,
   (C9_ps_failure_does_not_abort envC9b (by decide)).2 (by decide)⟩

/-- C10: for an absolute script directory (the directory containing
boot_keycloak.py), the file opened by `load_config` does not depend on the
working directory of the caller; a relative config path is resolved against
the script directory, and an absolute config path is used unchanged. -/
theorem C10_relative_config_resolved_against_script_dir (scriptDir : PPath)
    (h : scriptDir.absolute = true) :
    ∀ cwd cwd2 cfg : PPath,
      opened_config cwd scriptDir cfg = opened_config cwd2 scriptDir cfg ∧
      (cfg.absolute = true → opened_config cwd scriptDir cfg = cfg) ∧
      (cfg.absolute = false →
        opened_config cwd scriptDir cfg = pathDiv scriptDir cfg) := by
  intro cwd cwd2 cfg
  by_cases hc : cfg.absolute <;>
    simp [opened_config, load_config_path, pathResolve, pathDiv, hc, h]

/-- C10 witness: the theorem applied to an absolute script directory, two
different working directories and a relative config path. -/
theorem C10_witness :
    opened_config (PPath.mk true ["a"]) (PPath.mk true ["app", "keycloak"])
        (PPath.mk false ["config.json"])
      = opened_config (PPath.mk true ["b"]) (PPath.mk true ["app", "keycloak"])
          (PPath.mk false ["config.json"]) ∧
    opened_config (PPath.mk true ["a"]) (PPath.mk true ["app", "keycloak"])
        (PPath.mk false ["config.json"])
      = pathDiv (PPath.mk true ["app", "keycloak"]) (PPath.mk false ["config.json"]) :=
  ⟨(C10_relative_config_resolved_against_script_dir
      (PPath.mk true ["app", "keycloak"]) rfl
      (PPath.mk true ["a"]) (PPath.mk true ["b"]) (PPath.mk false ["config.json"])).1,
   (C10_relative_config_resolved_against_script_dir
      (PPath.mk true ["app", "keycloak"]) rfl
      (PPath.mk true ["a"]) (PPath.mk true ["b"])
      (PPath.mk false ["config.json"])).2.2 rfl⟩
